import Mathlib

/-
Verification of the movie CRUD service (services/crud.py, schemas/movies.py,
routes/movies.py) against its specification.

The relational store is embedded as explicit lists of rows with per-table id
sequences.  Each service function of services/crud.py is translated into a
pure function from a `Store` to an `Except ApiError` result carrying the new
store; an `Except.error` outcome models the enclosing transaction rolling
back (the store is unchanged on error).  SQLAlchemy's `scalar_one_or_none`
is embedded faithfully: it yields `none` for no row, the row when exactly one
matches, and a `MultipleResultsFound` error when several match.  Dates are
embedded as integers (day numbers); the float-typed score/budget/revenue
fields are embedded as rationals (no arithmetic is ever performed on them).
-/

namespace MovieApp

/-- Errors surfaced by the service: `http` models a raised `HTTPException`
with its status code and detail message; `multipleResults` models
SQLAlchemy's `MultipleResultsFound`, which is not an `HTTPException` and
surfaces as a generic server error. -/
inductive ApiError where
  | http (statusCode : Nat) (detail : String)
  | multipleResults
deriving DecidableEq, Repr

/-- A row of the genre / actor / language tables (GenreModel, ActorModel,
LanguageModel all have an id and a unique name). -/
structure NamedRow where
  id : Nat
  name : String
deriving DecidableEq, Repr

/-- A row of the country table (CountryModel: id, code, optional name). -/
structure CountryRow where
  id : Nat
  code : String
  name : Option String
deriving DecidableEq, Repr

/-- A movie row (MovieModel).  Relations are stored as foreign keys:
`countryId` for the many-to-one country, and id lists for the many-to-many
genres/actors/languages join tables.  The release date is nullable (the spec
marks it optional on read); the remaining columns are plain values. -/
structure Movie where
  id : Nat
  name : String
  date : Option Int
  score : Rat
  overview : String
  status : String
  budget : Rat
  revenue : Rat
  countryId : Nat
  genreIds : List Nat
  actorIds : List Nat
  languageIds : List Nat
deriving DecidableEq, Repr

/-- The relational store: one list of rows per table, plus the id sequence
of each table (the next id a freshly inserted row receives). -/
structure Store where
  movies : List Movie
  genres : List NamedRow
  actors : List NamedRow
  languages : List NamedRow
  countries : List CountryRow
  nextMovieId : Nat
  nextGenreId : Nat
  nextActorId : Nat
  nextLanguageId : Nat
  nextCountryId : Nat
deriving DecidableEq, Repr

/-- Decidable equality of results, so that concrete witnesses can be checked
by evaluation. -/
instance {ε α : Type} [DecidableEq ε] [DecidableEq α] :
    DecidableEq (Except ε α) := fun a b =>
  match a, b with
  | .ok x, .ok y =>
    if h : x = y then .isTrue (by rw [h]) else .isFalse (by simp [h])
  | .error x, .error y =>
    if h : x = y then .isTrue (by rw [h]) else .isFalse (by simp [h])
  | .ok _, .error _ => .isFalse (by simp)
  | .error _, .ok _ => .isFalse (by simp)

/-- SQLAlchemy `Result.scalar_one_or_none` applied to the rows matched by a
query: `none` when no row matches, the unique row when exactly one does, and
`MultipleResultsFound` when more than one matches. -/
def scalarOneOrNone {α : Type} (rows : List α) : Except ApiError (Option α) :=
  match rows with
  | [] => .ok none
  | [a] => .ok (some a)
  | _ :: _ :: _ => .error .multipleResults

/-- Validated body of POST /movies/ (MovieCreateSchema, after pydantic
validation). -/
structure MovieCreateInput where
  name : String
  date : Int
  score : Rat
  overview : String
  status : String
  budget : Rat
  revenue : Rat
  country : String
  genres : List String
  actors : List String
  languages : List String
deriving DecidableEq, Repr

/-- Embeds `get_obj_count`: a full, unfiltered count of the movie table. -/
def get_obj_count (s : Store) : Nat := s.movies.length

/-- The `ORDER BY id DESC` of the list query: the movie table sorted by id
descending. -/
def sortByIdDesc (l : List Movie) : List Movie :=
  List.insertionSort (fun a b => b.id ≤ a.id) l

/-- The page of movies fetched by `get_movies`: `OFFSET (page-1)*per_page`
then `LIMIT per_page` over the id-descending order. -/
def fetchedPage (s : Store) (page per_page : Nat) : List Movie :=
  ((sortByIdDesc s.movies).drop ((page - 1) * per_page)).take per_page

/-- The pagination link rendered by `get_movies`. -/
def pageUrl (page per_page : Nat) : String :=
  "/theater/movies/?page=" ++ toString page ++ "&per_page=" ++ toString per_page

/-- Successful response of `get_movies`. -/
structure MovieListResponse where
  movies : List Movie
  prev_page : Option String
  next_page : Option String
  total_pages : Nat
  total_items : Nat
deriving DecidableEq, Repr

/-- Embeds `get_movies`: fetches one page (offset/limit over id-descending
order), computes the totals with `total_pages = (total_items + per_page - 1)
// per_page`, emits prev/next links by comparing `page` with 1 and with
`total_pages`, and raises 404 when the fetched page is empty. -/
def get_movies (s : Store) (page per_page : Nat) :
    Except ApiError MovieListResponse :=
  let movies := fetchedPage s page per_page
  let total_items := get_obj_count s
  let total_pages := (total_items + per_page - 1) / per_page
  let prev_page := if page > 1 then some (pageUrl (page - 1) per_page) else none
  let next_page := if page < total_pages then some (pageUrl (page + 1) per_page) else none
  if movies.isEmpty then
    .error (.http 404 "No movies found.")
  else
    .ok { movies, prev_page, next_page, total_pages, total_items }

/-- The 409 detail message of `name_data_unique_validaton`, naming the
offending name and release date. -/
def conflictDetail (name : String) (date : Int) : String :=
  "A movie with the name '" ++ name ++ "' and release date '" ++ toString date ++
    "' already exists."

/-- The predicate of the duplicate query of `name_data_unique_validaton`:
rows whose (name, date) both equal the input's. -/
def dupMatches (movie_data : MovieCreateInput) (m : Movie) : Bool :=
  m.name == movie_data.name && m.date == some movie_data.date

/-- Embeds `name_data_unique_validaton`: queries for a movie with the same
(name, date) via `scalar_one_or_none` and raises 409 when one exists. -/
def name_data_unique_validaton (s : Store) (movie_data : MovieCreateInput) :
    Except ApiError Unit := do
  let existing ← scalarOneOrNone (s.movies.filter (dupMatches movie_data))
  match existing with
  | some _ => .error (.http 409 (conflictDetail movie_data.name movie_data.date))
  | none => .ok ()

/-- Embeds the generic `get_or_create`: query by the filter, reuse the unique
matching row if one exists, otherwise insert a freshly constructed row (its
id drawn from the table's sequence at flush) and return it.  Returns the
row together with the new table contents and sequence value. -/
def get_or_create {α : Type} (tbl : List α) (next_id : Nat)
    (sel : α → Bool) (mk : Nat → α) :
    Except ApiError (α × List α × Nat) := do
  let found? ← scalarOneOrNone (tbl.filter sel)
  match found? with
  | some inst => .ok (inst, tbl, next_id)
  | none => .ok (mk next_id, tbl ++ [mk next_id], next_id + 1)

/-- The `get_or_create` instance used for genres/actors/languages: natural
key is the exact name (no case or whitespace normalization). -/
def getOrCreateNamed (tbl : List NamedRow) (next_id : Nat) (key : String) :
    Except ApiError (NamedRow × List NamedRow × Nat) :=
  get_or_create tbl next_id (fun r => r.name == key) (fun i => ⟨i, key⟩)

/-- The list comprehension of `create_film` that resolves each name of a
genre/actor/language list through `get_or_create`, threading the table
state left to right. -/
def getOrCreateMany (tbl : List NamedRow) (next_id : Nat) (keys : List String) :
    Except ApiError (List NamedRow × List NamedRow × Nat) :=
  match keys with
  | [] => .ok ([], tbl, next_id)
  | k :: rest => do
    let (row, tbl1, id1) ← getOrCreateNamed tbl next_id k
    let (rows, tbl2, id2) ← getOrCreateMany tbl1 id1 rest
    .ok (row :: rows, tbl2, id2)

/-- The `get_or_create` instance used for the country: natural key is the
exact code; a freshly created country has no name. -/
def getOrCreateCountry (tbl : List CountryRow) (next_id : Nat) (code : String) :
    Except ApiError (CountryRow × List CountryRow × Nat) :=
  get_or_create tbl next_id (fun r => r.code == code)
    (fun i => { id := i, code := code, name := none })

/-- Embeds `create_film`: runs the (name, date) uniqueness check, resolves
genres, actors, languages and the country via get-or-create, inserts the new
movie row linked to all resolved relations, and commits.  The post-insert
re-fetch of the source returns the freshly inserted row with its relations,
which is exactly the returned `Movie` value. -/
def create_film (s : Store) (movie_data : MovieCreateInput) :
    Except ApiError (Movie × Store) := do
  name_data_unique_validaton s movie_data
  let (genreRows, genres1, gid1) ←
    getOrCreateMany s.genres s.nextGenreId movie_data.genres
  let (actorRows, actors1, aid1) ←
    getOrCreateMany s.actors s.nextActorId movie_data.actors
  let (languageRows, languages1, lid1) ←
    getOrCreateMany s.languages s.nextLanguageId movie_data.languages
  let (countryRow, countries1, cid1) ←
    getOrCreateCountry s.countries s.nextCountryId movie_data.country
  let new_movie : Movie :=
    { id := s.nextMovieId
      name := movie_data.name
      date := some movie_data.date
      score := movie_data.score
      overview := movie_data.overview
      status := movie_data.status
      budget := movie_data.budget
      revenue := movie_data.revenue
      countryId := countryRow.id
      genreIds := genreRows.map (fun r => r.id)
      actorIds := actorRows.map (fun r => r.id)
      languageIds := languageRows.map (fun r => r.id) }
  .ok (new_movie,
    { movies := s.movies ++ [new_movie]
      genres := genres1
      actors := actors1
      languages := languages1
      countries := countries1
      nextMovieId := s.nextMovieId + 1
      nextGenreId := gid1
      nextActorId := aid1
      nextLanguageId := lid1
      nextCountryId := cid1 })

/-- Embeds `get_movie_with_id`: fetch by id, 404 when absent. -/
def get_movie_with_id (s : Store) (movie_id : Nat) : Except ApiError Movie := do
  let movie? ← scalarOneOrNone (s.movies.filter (fun m => m.id == movie_id))
  match movie? with
  | none => .error (.http 404 "Movie with the given ID was not found.")
  | some m => .ok m

/-- The 204-with-empty-body response returned by `delete_movie`. -/
structure EmptyResponse where
  statusCode : Nat
  body : Option String
deriving DecidableEq, Repr

/-- Embeds `delete_movie`: fetch by id (404 when absent), delete the row
(related tables untouched), commit, and answer 204 with an empty body. -/
def delete_movie (s : Store) (movie_id : Nat) :
    Except ApiError (EmptyResponse × Store) := do
  let movie? ← scalarOneOrNone (s.movies.filter (fun m => m.id == movie_id))
  match movie? with
  | none => .error (.http 404 "Movie with the given ID was not found.")
  | some _ =>
    .ok ({ statusCode := 204, body := none },
      { s with movies := s.movies.filter (fun m => m.id != movie_id) })

/-- A field of a PATCH body: pydantic distinguishes a field that is absent
from the request (`unset`, excluded by `model_dump(exclude_unset=True)`)
from one explicitly supplied (`set v`), even when the supplied value is
null. -/
inductive Patch (α : Type) where
  | unset
  | set (v : α)
deriving DecidableEq, Repr

/-- Validated body of PATCH /movies/{id}/ (MovieUpdateSchema): every field
optional; the nullable date column may be explicitly set to null. -/
structure MovieUpdateInput where
  name : Patch String
  date : Patch (Option Int)
  score : Patch Rat
  overview : Patch String
  status : Patch String
  budget : Patch Rat
  revenue : Patch Rat
deriving DecidableEq, Repr

/-- One `setattr` of the update loop: a set field overwrites, an unset field
(absent from `model_dump(exclude_unset=True)`) is left untouched. -/
def applyPatch {α : Type} (p : Patch α) (old : α) : α :=
  match p with
  | .unset => old
  | .set v => v

/-- The `for key, value in data.items(): setattr(db_movie, key, value)` loop
of `update_movie` over the fields present in the partial payload.  The
relation columns are not part of MovieUpdateSchema and are never written. -/
def applyUpdate (u : MovieUpdateInput) (m : Movie) : Movie :=
  { m with
    name := applyPatch u.name m.name
    date := applyPatch u.date m.date
    score := applyPatch u.score m.score
    overview := applyPatch u.overview m.overview
    status := applyPatch u.status m.status
    budget := applyPatch u.budget m.budget
    revenue := applyPatch u.revenue m.revenue }

/-- Embeds `update_movie`: fetch by id (404 when absent), apply the partial
payload to that row, commit, and return the refreshed row. -/
def update_movie (s : Store) (movie_id : Nat) (movie : MovieUpdateInput) :
    Except ApiError (Movie × Store) := do
  let movie? ← scalarOneOrNone (s.movies.filter (fun m => m.id == movie_id))
  match movie? with
  | none => .error (.http 404 "Movie with the given ID was not found.")
  | some db_movie =>
    .ok (applyUpdate movie db_movie,
      { s with movies :=
          s.movies.map (fun m => if m.id == movie_id then applyUpdate movie m else m) })

/-- Embeds `MovieCreateSchema.date_validation`: reject a release date
strictly beyond today + 365 days. -/
def date_validation (today value : Int) : Except String Int :=
  if value > today + 365 then
    .error "Date cannot be more than one year in the future"
  else
    .ok value

/-- The status enum pattern of MovieCreateSchema. -/
def statusPattern (s : String) : Bool :=
  s == "Released" || s == "Post Production" || s == "In Production"

/-- Embeds the pydantic validation of MovieCreateSchema: the declared Field
constraints plus the `date_validation` field validator; any violation
surfaces as a 422 validation error. -/
def validate_movie_create (today : Int) (m : MovieCreateInput) :
    Except ApiError MovieCreateInput :=
  if m.name.length > 255 then
    .error (.http 422 "String should have at most 255 characters")
  else
    match date_validation today m.date with
    | .error e => .error (.http 422 e)
    | .ok _ =>
      if ¬(0 ≤ m.score ∧ m.score ≤ 100) then
        .error (.http 422 "score out of range")
      else if ¬statusPattern m.status then
        .error (.http 422 "String should match pattern")
      else if ¬(0 ≤ m.budget) then
        .error (.http 422 "budget out of range")
      else if ¬(0 ≤ m.revenue) then
        .error (.http 422 "revenue out of range")
      else
        .ok m

/-- A sample movie row used by concrete witnesses. -/
def sampleMovie : Movie :=
  { id := 1, name := "Dune", date := some 20089, score := 85, overview := "Epic.",
    status := "Released", budget := 100, revenue := 400, countryId := 1,
    genreIds := [1], actorIds := [1], languageIds := [1] }

/-- A second sample movie row used by concrete witnesses. -/
def sampleMovie2 : Movie :=
  { id := 2, name := "Tenet", date := some 18129, score := 73, overview := "Time.",
    status := "Released", budget := 200, revenue := 300, countryId := 1,
    genreIds := [1], actorIds := [2], languageIds := [1] }

/-- A sample store with two movies, used by concrete witnesses. -/
def sampleStore : Store :=
  { movies := [sampleMovie, sampleMovie2]
    genres := [⟨1, "Sci-Fi"⟩]
    actors := [⟨1, "A"⟩, ⟨2, "B"⟩]
    languages := [⟨1, "English"⟩]
    countries := [⟨1, "US", none⟩]
    nextMovieId := 3, nextGenreId := 2, nextActorId := 3
    nextLanguageId := 2, nextCountryId := 2 }

/-- The response `get_movies sampleStore 1 10` produces. -/
def sampleListResponse : MovieListResponse :=
  { movies := [sampleMovie2, sampleMovie], prev_page := none, next_page := none,
    total_pages := 1, total_items := 2 }

/-- A sample valid create payload whose date is exactly 365 days after a
`today` of 0. -/
def sampleCreateInput : MovieCreateInput :=
  { name := "Dune", date := 365, score := 85, overview := "Epic.",
    status := "Released", budget := 100, revenue := 400, country := "US",
    genres := ["Sci-Fi"], actors := ["A"], languages := ["English"] }

/-- A movie row duplicated (up to id) in `dupStore`: same name and date. -/
def dupMovie1 : Movie :=
  { id := 1, name := "Dune", date := some 100, score := 1, overview := "a",
    status := "Released", budget := 0, revenue := 0, countryId := 1,
    genreIds := [], actorIds := [], languageIds := [] }

/-- The second row of the duplicated (name, date) pair. -/
def dupMovie2 : Movie := { dupMovie1 with id := 2 }

/-- A store holding two movie rows with the same (name, date) — a state the
race the spec documents can produce, since the pair is not a database
constraint. -/
def dupStore : Store :=
  { movies := [dupMovie1, dupMovie2], genres := [], actors := [],
    languages := [], countries := [⟨1, "US", none⟩], nextMovieId := 3,
    nextGenreId := 1, nextActorId := 1, nextLanguageId := 1, nextCountryId := 2 }

/-- A create payload whose (name, date) matches both rows of `dupStore`. -/
def dupCreateInput : MovieCreateInput :=
  { name := "Dune", date := 100, score := 1, overview := "a",
    status := "Released", budget := 0, revenue := 0, country := "US",
    genres := [], actors := [], languages := [] }

/-- A create payload colliding with exactly `sampleMovie` on (name, date). -/
def conflictingInput : MovieCreateInput := { sampleCreateInput with date := 20089 }

/-- A PATCH payload that explicitly supplies date as null and leaves every
other field unset. -/
def nullDateUpdate : MovieUpdateInput :=
  { name := .unset, date := .set none, score := .unset, overview := .unset,
    status := .unset, budget := .unset, revenue := .unset }

/-- A PATCH payload supplying only name and score. -/
def partialUpdate : MovieUpdateInput :=
  { name := .set "Dune II", date := .unset, score := .set 90, overview := .unset,
    status := .unset, budget := .unset, revenue := .unset }

/-- The result of applying `partialUpdate` to `sampleMovie`. -/
def sampleMovieRenamed : Movie := { sampleMovie with name := "Dune II", score := 90 }

/-- The store after `partialUpdate` is applied to movie 1 of `sampleStore`. -/
def sampleStoreRenamed : Store :=
  { sampleStore with movies := [sampleMovieRenamed, sampleMovie2] }

/-- The result of applying `nullDateUpdate` to `sampleMovie`. -/
def sampleMovieCleared : Movie := { sampleMovie with date := none }

/-- The store after `nullDateUpdate` is applied to movie 1 of `sampleStore`. -/
def sampleStoreCleared : Store :=
  { sampleStore with movies := [sampleMovieCleared, sampleMovie2] }

/-- The empty store, as freshly initialized sequences start at 1. -/
def emptyStore : Store :=
  { movies := [], genres := [], actors := [], languages := [], countries := [],
    nextMovieId := 1, nextGenreId := 1, nextActorId := 1, nextLanguageId := 1,
    nextCountryId := 1 }

/-- A second create payload sharing every related-entity natural key with
`sampleCreateInput` but differing in (name, date). -/
def sampleCreateInputB : MovieCreateInput := { sampleCreateInput with name := "Tenet" }

/-- The movie created by `sampleCreateInput` on the empty store. -/
def dedupMovieA : Movie :=
  { id := 1, name := "Dune", date := some 365, score := 85, overview := "Epic.",
    status := "Released", budget := 100, revenue := 400, countryId := 1,
    genreIds := [1], actorIds := [1], languageIds := [1] }

/-- The store after the first create on the empty store. -/
def dedupStore1 : Store :=
  { movies := [dedupMovieA], genres := [⟨1, "Sci-Fi"⟩], actors := [⟨1, "A"⟩],
    languages := [⟨1, "English"⟩], countries := [⟨1, "US", none⟩],
    nextMovieId := 2, nextGenreId := 2, nextActorId := 2, nextLanguageId := 2,
    nextCountryId := 2 }

/-- The movie created by `sampleCreateInputB` on `dedupStore1`: every
related row is reused. -/
def dedupMovieB : Movie := { dedupMovieA with id := 2, name := "Tenet" }

/-- The store after the second create: no related table grew. -/
def dedupStore2 : Store :=
  { dedupStore1 with movies := [dedupMovieA, dedupMovieB], nextMovieId := 3 }

/-- Characterization of a successful `get_movies` call: the fetched page is
nonempty and the response is built from the fetched page, the links and the
totals. -/
theorem get_movies_ok_iff (s : Store) (page per_page : Nat) (r : MovieListResponse) :
    get_movies s page per_page = .ok r ↔
      fetchedPage s page per_page ≠ [] ∧
      r = { movies := fetchedPage s page per_page
            prev_page := if page > 1 then some (pageUrl (page - 1) per_page) else none
            next_page := if page < (get_obj_count s + per_page - 1) / per_page then
              some (pageUrl (page + 1) per_page) else none
            total_pages := (get_obj_count s + per_page - 1) / per_page
            total_items := get_obj_count s } := by
  unfold get_movies
  simp only [List.isEmpty_iff]
  by_cases hE : fetchedPage s page per_page = []
  · simp [hE]
  · simp [hE, eq_comm]

/-- Characterization of a failing `get_movies` call: exactly the empty
fetched page, answered 404 with detail "No movies found.". -/
theorem get_movies_error_iff (s : Store) (page per_page : Nat) (e : ApiError) :
    get_movies s page per_page = .error e ↔
      fetchedPage s page per_page = [] ∧ e = .http 404 "No movies found." := by
  unfold get_movies
  simp only [List.isEmpty_iff]
  by_cases hE : fetchedPage s page per_page = []
  · simp [hE, eq_comm]
  · simp [hE]

/-- The id-descending sort of the list query is sorted weakly descending. -/
theorem sortByIdDesc_sorted (l : List Movie) :
    (sortByIdDesc l).Pairwise (fun a b => b.id ≤ a.id) := by
  unfold sortByIdDesc
  letI : IsTotal Movie (fun a b => b.id ≤ a.id) :=
    ⟨fun a b => Nat.le_total b.id a.id⟩
  letI : IsTrans Movie (fun a b => b.id ≤ a.id) :=
    ⟨fun _ _ _ hab hbc => Nat.le_trans hbc hab⟩
  exact List.sorted_insertionSort _ l

/-- Claim C4: for every store state whose movie ids are distinct (the
primary-key invariant) and every valid page and per_page, a successful list
result is exactly the slice that skips (page-1)*per_page movies of the
id-descending order, holds at most per_page movies, is strictly descending
in id, and has no duplicates. -/
theorem get_movies_page_slice_sorted (s : Store) (page per_page : Nat)
    (r : MovieListResponse)
    (hp : 1 ≤ page) (hpp : 1 ≤ per_page) (hpp20 : per_page ≤ 20)
    (hids : (s.movies.map Movie.id).Nodup)
    (h : get_movies s page per_page = .ok r) :
    r.movies = ((sortByIdDesc s.movies).drop ((page - 1) * per_page)).take per_page ∧
    r.movies.length ≤ per_page ∧
    (∀ i : Nat, i < per_page →
      r.movies[i]? = (sortByIdDesc s.movies)[(page - 1) * per_page + i]?) ∧
    r.movies.Pairwise (fun a b => b.id < a.id) ∧
    r.movies.Nodup := by
  obtain ⟨-, rfl⟩ := (get_movies_ok_iff s page per_page r).mp h
  have hnd : ((sortByIdDesc s.movies).map Movie.id).Nodup :=
    ((List.perm_insertionSort _ s.movies).map Movie.id).nodup_iff.mpr hids
  have hne : (sortByIdDesc s.movies).Pairwise (fun a b => a.id ≠ b.id) :=
    List.pairwise_map.mp hnd
  have hstrictAll : (sortByIdDesc s.movies).Pairwise (fun a b => b.id < a.id) :=
    ((sortByIdDesc_sorted s.movies).and hne).imp
      (fun hab => Nat.lt_of_le_of_ne hab.1 (Ne.symm hab.2))
  have hsub : List.Sublist
      (((sortByIdDesc s.movies).drop ((page - 1) * per_page)).take per_page)
      (sortByIdDesc s.movies) :=
    (List.take_sublist _ _).trans (List.drop_sublist _ _)
  have hstrict := hstrictAll.sublist hsub
  refine ⟨rfl, List.length_take_le _ _, ?_, hstrict, ?_⟩
  · intro i hi
    show (((sortByIdDesc s.movies).drop ((page - 1) * per_page)).take per_page)[i]? = _
    rw [List.getElem?_take_of_lt hi, List.getElem?_drop]
  · exact List.Pairwise.imp
      (fun hab heq => absurd hab (by rw [heq]; exact Nat.lt_irrefl _)) hstrict

/-- Witness for C4 at the sample store with page 1, per_page 10. -/
theorem get_movies_page_slice_sorted_witness :
    sampleListResponse.movies.Pairwise (fun a b => b.id < a.id) :=
  (get_movies_page_slice_sorted sampleStore 1 10 sampleListResponse
    (by decide) (by decide) (by decide) (by decide) (by decide)).2.2.2.1

/-- Claim C5: for every store state and every valid per_page, the list
result's total_items equals the unfiltered count of all movie rows, and
total_pages equals ceil(total_items / per_page) computed with exact integer
arithmetic: it is the least k with total_items ≤ k * per_page. -/
theorem get_movies_totals_ceil (s : Store) (page per_page : Nat)
    (r : MovieListResponse) (hpp : 0 < per_page)
    (h : get_movies s page per_page = .ok r) :
    r.total_items = get_obj_count s ∧
    r.total_items = s.movies.length ∧
    r.total_pages = (r.total_items + per_page - 1) / per_page ∧
    r.total_items ≤ r.total_pages * per_page ∧
    (∀ k : Nat, r.total_items ≤ k * per_page → r.total_pages ≤ k) := by
  obtain ⟨-, rfl⟩ := (get_movies_ok_iff s page per_page r).mp h
  refine ⟨rfl, rfl, rfl, ?_, ?_⟩
  · have h1 : get_obj_count s ≤ per_page • (get_obj_count s ⌈/⌉ per_page) :=
      le_smul_ceilDiv hpp
    simpa [Nat.ceilDiv_eq_add_pred_div, smul_eq_mul, Nat.mul_comm] using h1
  · intro k hk
    have h2 : get_obj_count s ⌈/⌉ per_page ≤ k :=
      (ceilDiv_le_iff_le_mul hpp).mpr (by simpa [Nat.mul_comm] using hk)
    simpa [Nat.ceilDiv_eq_add_pred_div] using h2

/-- Witness for C5 at the sample store with page 1, per_page 10. -/
theorem get_movies_totals_ceil_witness :
    sampleListResponse.total_items ≤ sampleListResponse.total_pages * 10 :=
  (get_movies_totals_ceil sampleStore 1 10 sampleListResponse (by decide)
    (by decide)).2.2.2.1

/-- Claim C6: in every successful list result, next_page is present iff
page < total_pages and prev_page is present iff page > 1. -/
theorem get_movies_page_links (s : Store) (page per_page : Nat)
    (r : MovieListResponse) (h : get_movies s page per_page = .ok r) :
    (r.next_page.isSome = true ↔ page < r.total_pages) ∧
    (r.prev_page.isSome = true ↔ 1 < page) := by
  obtain ⟨-, rfl⟩ := (get_movies_ok_iff s page per_page r).mp h
  constructor
  · by_cases hlt : page < (get_obj_count s + per_page - 1) / per_page <;>
      simp [hlt]
  · by_cases hgt : 1 < page <;> simp [hgt]

/-- Witness for C6 at the sample store with page 1, per_page 10. -/
theorem get_movies_page_links_witness :
    sampleListResponse.prev_page.isSome = true ↔ 1 < 1 :=
  (get_movies_page_links sampleStore 1 10 sampleListResponse (by decide)).2

/-- Claim C7: for every store and valid pagination inputs, the list
operation fails with 404 "No movies found." exactly when the fetched page
is empty — including whenever page exceeds total_pages — and a successful
result never carries an empty movie list. -/
theorem get_movies_empty_page_404 (s : Store) (page per_page : Nat)
    (hpp : 0 < per_page) :
    (get_movies s page per_page = .error (.http 404 "No movies found.") ↔
      fetchedPage s page per_page = []) ∧
    (∀ r, get_movies s page per_page = .ok r → r.movies ≠ []) ∧
    ((get_obj_count s + per_page - 1) / per_page < page →
      get_movies s page per_page = .error (.http 404 "No movies found.")) := by
  refine ⟨?_, ?_, ?_⟩
  · rw [get_movies_error_iff]
    simp
  · intro r hr
    obtain ⟨hne, rfl⟩ := (get_movies_ok_iff s page per_page r).mp hr
    simpa using hne
  · intro hpage
    rw [get_movies_error_iff]
    refine ⟨?_, rfl⟩
    have hceil : get_obj_count s ≤ ((get_obj_count s + per_page - 1) / per_page) * per_page := by
      have h1 : get_obj_count s ≤ per_page • (get_obj_count s ⌈/⌉ per_page) :=
        le_smul_ceilDiv hpp
      simpa [Nat.ceilDiv_eq_add_pred_div, smul_eq_mul, Nat.mul_comm] using h1
    have hoff : get_obj_count s ≤ (page - 1) * per_page := by
      calc get_obj_count s ≤ ((get_obj_count s + per_page - 1) / per_page) * per_page := hceil
        _ ≤ (page - 1) * per_page := Nat.mul_le_mul_right _ (by omega)
    have hlen : (sortByIdDesc s.movies).length = s.movies.length :=
      (List.perm_insertionSort _ s.movies).length_eq
    unfold fetchedPage
    rw [List.drop_eq_nil_of_le (by rw [hlen]; exact hoff)]
    simp

/-- Witness for C7 at the sample store: page 5 exceeds total_pages 1. -/
theorem get_movies_empty_page_404_witness :
    get_movies sampleStore 5 10 = .error (.http 404 "No movies found.") :=
  (get_movies_empty_page_404 sampleStore 5 10 (by decide)).2.2 (by decide)

/-- Claim C8: the release-date validator of MovieCreateSchema rejects a date
exactly when it is strictly more than 365 days after today, and on an
otherwise valid create payload the whole schema validation succeeds iff the
date is at most today + 365 and surfaces the violation as a 422 error. -/
theorem date_validation_window (today : Int) (m : MovieCreateInput)
    (hname : m.name.length ≤ 255)
    (hscore : 0 ≤ m.score ∧ m.score ≤ 100)
    (hstat : statusPattern m.status = true)
    (hbud : 0 ≤ m.budget) (hrev : 0 ≤ m.revenue) :
    ((∃ e, date_validation today m.date = .error e) ↔ today + 365 < m.date) ∧
    (validate_movie_create today m = .ok m ↔ m.date ≤ today + 365) ∧
    (today + 365 < m.date →
      validate_movie_create today m =
        .error (.http 422 "Date cannot be more than one year in the future")) := by
  unfold validate_movie_create date_validation
  have hn : ¬(m.name.length > 255) := by omega
  by_cases hd : today + 365 < m.date
  · simp [hn, hd]
  · simp [hn, hd, hscore.1, hscore.2, hstat, hbud, hrev]
    omega

/-- Witness for C8: a payload dated exactly 365 days after today 0 passes
validation. -/
theorem date_validation_window_witness :
    validate_movie_create 0 sampleCreateInput = .ok sampleCreateInput :=
  ((date_validation_window 0 sampleCreateInput (by decide) (by decide)
    (by decide) (by decide) (by decide)).2.1).mpr (by decide)

/-- In a table whose ids are distinct (the primary-key invariant), the query
by the id of a member row returns exactly that row. -/
theorem filter_by_id_nodup : ∀ (l : List Movie),
    (l.map Movie.id).Nodup → ∀ m ∈ l, l.filter (fun x => x.id == m.id) = [m] := by
  intro l
  induction l with
  | nil => intro _ m hm; exact absurd hm (List.not_mem_nil m)
  | cons a t ih =>
    intro hnd m hm
    rw [List.map_cons, List.nodup_cons] at hnd
    obtain ⟨hna, hnt⟩ := hnd
    rcases List.mem_cons.mp hm with rfl | hm
    · rw [List.filter_cons_of_pos (by simp)]
      have hrest : t.filter (fun x => x.id == m.id) = [] := by
        rw [List.filter_eq_nil_iff]
        intro x hx hxe
        exact hna ((beq_iff_eq.mp hxe) ▸ List.mem_map_of_mem Movie.id hx)
      rw [hrest]
    · have hne : a.id ≠ m.id :=
        fun he => hna (he ▸ List.mem_map_of_mem Movie.id hm)
      rw [List.filter_cons_of_neg (by simp [hne])]
      exact ih hnt m hm

/-- Claim C1 counterexample: in a store already holding two rows with the
same (name, date) — a state the documented create/create race can produce,
since the pair is checked in code and not constrained in the database — a
create for that same pair does not fail with the 409 Conflict the claim
states for every store state: `scalar_one_or_none` raises
MultipleResultsFound, a generic server error. -/
theorem create_film_conflict_counterexample :
    create_film dupStore dupCreateInput = .error .multipleResults ∧
    ApiError.multipleResults ≠ ApiError.http 409 (conflictDetail "Dune" 100) :=
  ⟨by decide, by simp⟩

/-- Claim C1 (amended): when exactly one existing movie row matches the
input's (name, date) — true of every state the service itself maintains,
because this check runs before each insert — create fails with 409 and the
message naming the offending name and date; when two or more rows match it
fails with the MultipleResultsFound server error.  Either way the operation
errors before any insert, so the store is unchanged (errors roll the
transaction back in this embedding). -/
theorem create_film_conflict (s : Store) (c : MovieCreateInput) :
    ((s.movies.filter (dupMatches c)).length = 1 →
      create_film s c = .error (.http 409 (conflictDetail c.name c.date))) ∧
    (2 ≤ (s.movies.filter (dupMatches c)).length →
      create_film s c = .error .multipleResults) := by
  constructor
  · intro h1
    obtain ⟨m, hm⟩ : ∃ m, s.movies.filter (dupMatches c) = [m] := by
      match hl : s.movies.filter (dupMatches c) with
      | [m] => exact ⟨m, rfl⟩
      | [] => rw [hl] at h1; simp at h1
      | _ :: _ :: _ => rw [hl] at h1; simp at h1
    unfold create_film name_data_unique_validaton
    rw [hm]
    rfl
  · intro h2
    obtain ⟨a, b, rest, hab⟩ :
        ∃ a b rest, s.movies.filter (dupMatches c) = a :: b :: rest := by
      match hl : s.movies.filter (dupMatches c) with
      | [] => rw [hl] at h2; simp at h2
      | [m] => rw [hl] at h2; simp at h2
      | a :: b :: rest => exact ⟨a, b, rest, rfl⟩
    unfold create_film name_data_unique_validaton
    rw [hab]
    rfl

/-- Witness for C1 (amended) at the sample store, where exactly one row
matches the conflicting payload. -/
theorem create_film_conflict_witness :
    create_film sampleStore conflictingInput =
      .error (.http 409 (conflictDetail conflictingInput.name conflictingInput.date)) :=
  (create_film_conflict sampleStore conflictingInput).1 (by decide)

/-- Claim C2: updating an existing movie with a partial payload changes
exactly the fields the payload supplies; every unset field keeps its prior
value, the movie's id and its country/genres/actors/languages relations are
untouched, the relation tables are untouched, and every other movie row is
untouched. -/
theorem update_movie_partial_fields (s : Store) (movie_id : Nat)
    (u : MovieUpdateInput) (m' : Movie) (s' : Store) (m : Movie)
    (hids : (s.movies.map Movie.id).Nodup)
    (hm : m ∈ s.movies) (hmid : m.id = movie_id)
    (h : update_movie s movie_id u = .ok (m', s')) :
    m' = applyUpdate u m ∧
    (u.name = .unset → m'.name = m.name) ∧
    (∀ v, u.name = .set v → m'.name = v) ∧
    (u.date = .unset → m'.date = m.date) ∧
    (∀ v, u.date = .set v → m'.date = v) ∧
    (u.score = .unset → m'.score = m.score) ∧
    (∀ v, u.score = .set v → m'.score = v) ∧
    (u.overview = .unset → m'.overview = m.overview) ∧
    (∀ v, u.overview = .set v → m'.overview = v) ∧
    (u.status = .unset → m'.status = m.status) ∧
    (∀ v, u.status = .set v → m'.status = v) ∧
    (u.budget = .unset → m'.budget = m.budget) ∧
    (∀ v, u.budget = .set v → m'.budget = v) ∧
    (u.revenue = .unset → m'.revenue = m.revenue) ∧
    (∀ v, u.revenue = .set v → m'.revenue = v) ∧
    m'.id = m.id ∧ m'.countryId = m.countryId ∧ m'.genreIds = m.genreIds ∧
    m'.actorIds = m.actorIds ∧ m'.languageIds = m.languageIds ∧
    s'.genres = s.genres ∧ s'.actors = s.actors ∧
    s'.languages = s.languages ∧ s'.countries = s.countries ∧
    s'.movies = s.movies.map
      (fun mv => if mv.id == movie_id then applyUpdate u mv else mv) ∧
    (∀ mv, mv ∈ s.movies → mv.id ≠ movie_id → mv ∈ s'.movies) := by
  subst hmid
  have hfilter := filter_by_id_nodup s.movies hids m hm
  have heval : update_movie s m.id u = .ok (applyUpdate u m,
      { s with movies := s.movies.map (fun mv => if mv.id == m.id then applyUpdate u mv else mv) }) := by
    unfold update_movie
    rw [hfilter]
    rfl
  rw [heval] at h
  simp only [Except.ok.injEq, Prod.mk.injEq] at h
  obtain ⟨hm', hs'⟩ := h
  subst hm'
  subst hs'
  have hmem : ∀ mv ∈ s.movies, mv.id ≠ m.id →
      mv ∈ s.movies.map (fun mv => if mv.id == m.id then applyUpdate u mv else mv) := by
    intro mv hmv hne
    simp only [List.mem_map]
    exact ⟨mv, hmv, by simp [hne]⟩
  refine ⟨rfl, ?_, ?_, ?_, ?_, ?_, ?_, ?_, ?_, ?_, ?_, ?_, ?_, ?_, ?_,
    rfl, rfl, rfl, rfl, rfl, rfl, rfl, rfl, rfl, rfl, hmem⟩
  all_goals
    first
    | (intro hv; simp [applyUpdate, applyPatch, hv])
    | (intro v hv; simp [applyUpdate, applyPatch, hv])

/-- Witness for C2: applying a name-and-score-only payload to movie 1 of
the sample store yields exactly the renamed movie. -/
theorem update_movie_partial_fields_witness :
    sampleMovieRenamed = applyUpdate partialUpdate sampleMovie :=
  (update_movie_partial_fields sampleStore 1 partialUpdate sampleMovieRenamed
    sampleStoreRenamed sampleMovie (by decide) (by decide) (by decide)
    (by decide)).1

/-- Claim C9: deleting a nonexistent id fails with the 404 not-found error
and the store is unchanged (the operation errors before any write); deleting
an existing id succeeds with 204 and an empty body, removes exactly that
movie row while leaving the genre/actor/language/country tables intact, and
a subsequent get on that id fails with the 404 not-found error. -/
theorem delete_movie_behavior (s : Store) (movie_id : Nat)
    (hids : (s.movies.map Movie.id).Nodup) :
    ((∀ m ∈ s.movies, m.id ≠ movie_id) →
      delete_movie s movie_id =
        .error (.http 404 "Movie with the given ID was not found.")) ∧
    (∀ m ∈ s.movies, m.id = movie_id →
      ∃ s', delete_movie s movie_id = .ok (⟨204, none⟩, s') ∧
        s'.movies = s.movies.filter (fun mv => mv.id != movie_id) ∧
        s'.genres = s.genres ∧ s'.actors = s.actors ∧
        s'.languages = s.languages ∧ s'.countries = s.countries ∧
        get_movie_with_id s' movie_id =
          .error (.http 404 "Movie with the given ID was not found.")) := by
  constructor
  · intro habs
    have hfilter : s.movies.filter (fun x => x.id == movie_id) = [] := by
      rw [List.filter_eq_nil_iff]
      intro x hx hxe
      exact habs x hx (beq_iff_eq.mp hxe)
    unfold delete_movie
    rw [hfilter]
    rfl
  · intro m hm hmid
    subst hmid
    have hfilter := filter_by_id_nodup s.movies hids m hm
    refine ⟨{ s with movies := s.movies.filter (fun mv => mv.id != m.id) },
      ?_, rfl, rfl, rfl, rfl, rfl, ?_⟩
    · unfold delete_movie
      rw [hfilter]
      rfl
    · have hgone : (s.movies.filter (fun mv => mv.id != m.id)).filter
          (fun x => x.id == m.id) = [] := by
        rw [List.filter_eq_nil_iff]
        intro x hx hxe
        have := (List.mem_filter.mp hx).2
        simp only [bne_iff_ne, ne_eq] at this
        exact this (beq_iff_eq.mp hxe)
      unfold get_movie_with_id
      rw [show ({ s with movies := s.movies.filter (fun mv => mv.id != m.id) } :
        Store).movies = s.movies.filter (fun mv => mv.id != m.id) from rfl]
      rw [hgone]
      rfl

/-- Witness for C9: deleting existing movie 1 of the sample store. -/
theorem delete_movie_behavior_witness :
    ∃ s', delete_movie sampleStore 1 = .ok (⟨204, none⟩, s') ∧
      s'.movies = sampleStore.movies.filter (fun mv => mv.id != 1) ∧
      s'.genres = sampleStore.genres ∧ s'.actors = sampleStore.actors ∧
      s'.languages = sampleStore.languages ∧
      s'.countries = sampleStore.countries ∧
      get_movie_with_id s' 1 =
        .error (.http 404 "Movie with the given ID was not found.") :=
  (delete_movie_behavior sampleStore 1 (by decide)).2 sampleMovie
    (by decide) (by decide)

/-- Claim C10: the update distinguishes a field explicitly supplied as null
from an omitted field — `model_dump(exclude_unset=True)` drops only unset
fields — so a payload that sets date to null clears the stored movie's
release date, while an unset date keeps the prior value; the updated row is
stored. -/
theorem update_movie_explicit_null (s : Store) (movie_id : Nat)
    (u : MovieUpdateInput) (m' : Movie) (s' : Store) (m : Movie)
    (hids : (s.movies.map Movie.id).Nodup)
    (hm : m ∈ s.movies) (hmid : m.id = movie_id)
    (h : update_movie s movie_id u = .ok (m', s')) :
    (∀ d : Option Int, u.date = .set d → m'.date = d) ∧
    (u.date = .set none → m'.date = none) ∧
    (u.date = .unset → m'.date = m.date) ∧
    m' ∈ s'.movies := by
  subst hmid
  have hfilter := filter_by_id_nodup s.movies hids m hm
  have heval : update_movie s m.id u = .ok (applyUpdate u m,
      { s with movies := s.movies.map (fun mv => if mv.id == m.id then applyUpdate u mv else mv) }) := by
    unfold update_movie
    rw [hfilter]
    rfl
  rw [heval] at h
  simp only [Except.ok.injEq, Prod.mk.injEq] at h
  obtain ⟨hm', hs'⟩ := h
  subst hm'
  subst hs'
  refine ⟨?_, ?_, ?_, ?_⟩
  · intro d hd; simp [applyUpdate, applyPatch, hd]
  · intro hd; simp [applyUpdate, applyPatch, hd]
  · intro hd; simp [applyUpdate, applyPatch, hd]
  · simp only [List.mem_map]
    exact ⟨m, hm, by simp⟩

/-- Witness for C10: the payload that sets date to null clears movie 1's
release date in the sample store. -/
theorem update_movie_explicit_null_witness :
    sampleMovieCleared.date = none :=
  (update_movie_explicit_null sampleStore 1 nullDateUpdate sampleMovieCleared
    sampleStoreCleared sampleMovie (by decide) (by decide) (by decide)
    (by decide)).2.1 rfl

/-- A successful named get-or-create returns a row carrying the requested
key, leaves exactly that row under the key, keeps every prior row, and
leaves every other key's rows unchanged. -/
theorem getOrCreateNamed_ok (tbl : List NamedRow) (nid : Nat) (k : String)
    (row : NamedRow) (tbl' : List NamedRow) (nid' : Nat)
    (h : getOrCreateNamed tbl nid k = .ok (row, tbl', nid')) :
    row.name = k ∧
    tbl'.filter (fun r => r.name == k) = [row] ∧
    (∀ x ∈ tbl, x ∈ tbl') ∧
    (∀ k', k' ≠ k → tbl'.filter (fun r => r.name == k') =
      tbl.filter (fun r => r.name == k')) := by
  unfold getOrCreateNamed get_or_create at h
  cases hf : tbl.filter (fun r => r.name == k) with
  | nil =>
    rw [hf] at h
    have h2 : (Except.ok (⟨nid, k⟩, tbl ++ [⟨nid, k⟩], nid + 1) :
        Except ApiError (NamedRow × List NamedRow × Nat)) = .ok (row, tbl', nid') := h
    simp only [Except.ok.injEq, Prod.mk.injEq] at h2
    obtain ⟨hrow, htbl, -⟩ := h2
    subst hrow; subst htbl
    refine ⟨rfl, ?_, fun x hx => List.mem_append_left _ hx, ?_⟩
    · rw [List.filter_append, hf]
      simp
    · intro k' hk'
      rw [List.filter_append]
      have hone : ([⟨nid, k⟩] : List NamedRow).filter (fun r => r.name == k') = [] := by
        rw [List.filter_eq_nil_iff]
        intro x hx
        rw [List.mem_singleton.mp hx]
        simpa using Ne.symm hk'
      rw [hone, List.append_nil]
  | cons a t =>
    cases t with
    | nil =>
      rw [hf] at h
      have h2 : (Except.ok (a, tbl, nid) :
          Except ApiError (NamedRow × List NamedRow × Nat)) = .ok (row, tbl', nid') := h
      simp only [Except.ok.injEq, Prod.mk.injEq] at h2
      obtain ⟨hrow, htbl, -⟩ := h2
      subst hrow; subst htbl
      have hmem : a ∈ tbl.filter (fun r => r.name == k) := by
        rw [hf]; exact List.mem_singleton_self a
      exact ⟨beq_iff_eq.mp (List.mem_filter.mp hmem).2, hf,
        fun x hx => hx, fun k' _ => rfl⟩
    | cons b t2 =>
      rw [hf] at h
      exact Except.noConfusion h

/-- A successful country get-or-create returns a row carrying the requested
code, leaves exactly that row under the code, and keeps every prior row. -/
theorem getOrCreateCountry_ok (tbl : List CountryRow) (nid : Nat) (code : String)
    (row : CountryRow) (tbl' : List CountryRow) (nid' : Nat)
    (h : getOrCreateCountry tbl nid code = .ok (row, tbl', nid')) :
    row.code = code ∧
    tbl'.filter (fun r => r.code == code) = [row] ∧
    (∀ x ∈ tbl, x ∈ tbl') := by
  unfold getOrCreateCountry get_or_create at h
  cases hf : tbl.filter (fun r => r.code == code) with
  | nil =>
    rw [hf] at h
    have h2 : (Except.ok ({ id := nid, code := code, name := none },
        tbl ++ [{ id := nid, code := code, name := none }], nid + 1) :
        Except ApiError (CountryRow × List CountryRow × Nat)) = .ok (row, tbl', nid') := h
    simp only [Except.ok.injEq, Prod.mk.injEq] at h2
    obtain ⟨hrow, htbl, -⟩ := h2
    subst hrow; subst htbl
    refine ⟨rfl, ?_, fun x hx => List.mem_append_left _ hx⟩
    rw [List.filter_append, hf]
    simp
  | cons a t =>
    cases t with
    | nil =>
      rw [hf] at h
      have h2 : (Except.ok (a, tbl, nid) :
          Except ApiError (CountryRow × List CountryRow × Nat)) = .ok (row, tbl', nid') := h
      simp only [Except.ok.injEq, Prod.mk.injEq] at h2
      obtain ⟨hrow, htbl, -⟩ := h2
      subst hrow; subst htbl
      have hmem : a ∈ tbl.filter (fun r => r.code == code) := by
        rw [hf]; exact List.mem_singleton_self a
      exact ⟨beq_iff_eq.mp (List.mem_filter.mp hmem).2, hf, fun x hx => hx⟩
    | cons b t2 =>
      rw [hf] at h
      exact Except.noConfusion h

/-- A successful get-or-create over a list of keys keeps every prior row,
leaves exactly one row under each requested key — referenced by the
returned rows — and leaves every other key's rows unchanged. -/
theorem getOrCreateMany_ok : ∀ (keys : List String) (tbl : List NamedRow)
    (nid : Nat) (rows : List NamedRow) (tbl' : List NamedRow) (nid' : Nat),
    getOrCreateMany tbl nid keys = .ok (rows, tbl', nid') →
    (∀ x ∈ tbl, x ∈ tbl') ∧
    (∀ k ∈ keys, ∃ e, tbl'.filter (fun r => r.name == k) = [e] ∧
      e.id ∈ rows.map NamedRow.id) ∧
    (∀ k, k ∉ keys → tbl'.filter (fun r => r.name == k) =
      tbl.filter (fun r => r.name == k)) := by
  intro keys
  induction keys with
  | nil =>
    intro tbl nid rows tbl' nid' h
    have h2 : (Except.ok ([], tbl, nid) :
        Except ApiError (List NamedRow × List NamedRow × Nat)) = .ok (rows, tbl', nid') := h
    simp only [Except.ok.injEq, Prod.mk.injEq] at h2
    obtain ⟨-, htbl, -⟩ := h2
    subst htbl
    exact ⟨fun x hx => hx, fun k hk => absurd hk (List.not_mem_nil k),
      fun k _ => rfl⟩
  | cons k0 rest ih =>
    intro tbl nid rows tbl' nid' h
    unfold getOrCreateMany at h
    cases hg : getOrCreateNamed tbl nid k0 with
    | error e => rw [hg] at h; exact Except.noConfusion h
    | ok tg =>
      obtain ⟨row, tbl1, id1⟩ := tg
      rw [hg] at h
      have h' : ((do
          let (rows2, tbl2, id2) ← getOrCreateMany tbl1 id1 rest
          Except.ok (row :: rows2, tbl2, id2)) :
          Except ApiError (List NamedRow × List NamedRow × Nat)) =
          .ok (rows, tbl', nid') := h
      cases hm : getOrCreateMany tbl1 id1 rest with
      | error e => rw [hm] at h'; exact Except.noConfusion h'
      | ok tm =>
        obtain ⟨rows2, tbl2, id2⟩ := tm
        rw [hm] at h'
        have h2 : (Except.ok (row :: rows2, tbl2, id2) :
            Except ApiError (List NamedRow × List NamedRow × Nat)) =
            .ok (rows, tbl', nid') := h'
        simp only [Except.ok.injEq, Prod.mk.injEq] at h2
        obtain ⟨hrows, htbl, -⟩ := h2
        subst hrows; subst htbl
        obtain ⟨hname1, hone1, hmono1, hpres1⟩ :=
          getOrCreateNamed_ok tbl nid k0 row tbl1 id1 hg
        obtain ⟨hmono2, hin2, hpres2⟩ := ih tbl1 id1 rows2 tbl2 id2 hm
        refine ⟨fun x hx => hmono2 x (hmono1 x hx), ?_, ?_⟩
        · intro k hk
          rcases List.mem_cons.mp hk with rfl | hk
          · by_cases hkr : k ∈ rest
            · obtain ⟨e, he, hid⟩ := hin2 k hkr
              exact ⟨e, he, by rw [List.map_cons]; exact List.mem_cons_of_mem _ hid⟩
            · refine ⟨row, ?_, by simp⟩
              rw [hpres2 k hkr]
              exact hone1
          · obtain ⟨e, he, hid⟩ := hin2 k hk
            exact ⟨e, he, by rw [List.map_cons]; exact List.mem_cons_of_mem _ hid⟩
        · intro k hk
          have hk0 : k ≠ k0 := fun he => hk (he ▸ List.mem_cons_self k0 rest)
          have hkr : k ∉ rest := fun hin => hk (List.mem_cons_of_mem _ hin)
          rw [hpres2 k hkr, hpres1 k hk0]

/-- Two successive successful get-or-create passes that share a key leave
exactly one row under that key, referenced by both result lists. -/
theorem getOrCreateMany_dedup (tblA tbl1 tbl2 : List NamedRow)
    (nidA nid1 : Nat) (keys1 keys2 : List String)
    (rows1 rows2 : List NamedRow) (nid1' nid2' : Nat)
    (hA : getOrCreateMany tblA nidA keys1 = .ok (rows1, tbl1, nid1'))
    (hB : getOrCreateMany tbl1 nid1 keys2 = .ok (rows2, tbl2, nid2'))
    (g : String) (hg1 : g ∈ keys1) (hg2 : g ∈ keys2) :
    ∃ e : NamedRow, e.name = g ∧
      tbl2.filter (fun r => r.name == g) = [e] ∧
      e.id ∈ rows1.map NamedRow.id ∧ e.id ∈ rows2.map NamedRow.id := by
  obtain ⟨-, hin1, -⟩ := getOrCreateMany_ok keys1 tblA nidA rows1 tbl1 nid1' hA
  obtain ⟨hmono2, hin2, -⟩ := getOrCreateMany_ok keys2 tbl1 nid1 rows2 tbl2 nid2' hB
  obtain ⟨e1, he1, hid1⟩ := hin1 g hg1
  obtain ⟨e2, he2, hid2⟩ := hin2 g hg2
  have he1mem : e1 ∈ tbl1.filter (fun r => r.name == g) := by
    rw [he1]; exact List.mem_singleton_self e1
  have h1m := List.mem_filter.mp he1mem
  have he1in2 : e1 ∈ tbl2.filter (fun r => r.name == g) :=
    List.mem_filter.mpr ⟨hmono2 e1 h1m.1, h1m.2⟩
  rw [he2] at he1in2
  have he12 : e1 = e2 := List.mem_singleton.mp he1in2
  subst he12
  exact ⟨e1, beq_iff_eq.mp h1m.2, he2, hid1, hid2⟩

/-- Destructuring of a successful `create_film`: each relation pass
succeeded with the tables and sequences the final store records, the new
movie references exactly the resolved rows, and the movie table grew by
exactly the new row. -/
theorem create_film_ok (s : Store) (c : MovieCreateInput) (m : Movie) (s' : Store)
    (h : create_film s c = .ok (m, s')) :
    ∃ genreRows actorRows languageRows countryRow,
      getOrCreateMany s.genres s.nextGenreId c.genres =
        .ok (genreRows, s'.genres, s'.nextGenreId) ∧
      getOrCreateMany s.actors s.nextActorId c.actors =
        .ok (actorRows, s'.actors, s'.nextActorId) ∧
      getOrCreateMany s.languages s.nextLanguageId c.languages =
        .ok (languageRows, s'.languages, s'.nextLanguageId) ∧
      getOrCreateCountry s.countries s.nextCountryId c.country =
        .ok (countryRow, s'.countries, s'.nextCountryId) ∧
      m.genreIds = genreRows.map NamedRow.id ∧
      m.actorIds = actorRows.map NamedRow.id ∧
      m.languageIds = languageRows.map NamedRow.id ∧
      m.countryId = countryRow.id ∧
      s'.movies = s.movies ++ [m] := by
  unfold create_film at h
  cases hv : name_data_unique_validaton s c with
  | error e => rw [hv] at h; exact Except.noConfusion h
  | ok u =>
    rw [hv] at h
    cases hg : getOrCreateMany s.genres s.nextGenreId c.genres with
    | error e => rw [hg] at h; exact Except.noConfusion h
    | ok tg =>
      obtain ⟨genreRows, genres1, gid1⟩ := tg
      rw [hg] at h
      cases ha : getOrCreateMany s.actors s.nextActorId c.actors with
      | error e => rw [ha] at h; exact Except.noConfusion h
      | ok ta =>
        obtain ⟨actorRows, actors1, aid1⟩ := ta
        rw [ha] at h
        cases hl : getOrCreateMany s.languages s.nextLanguageId c.languages with
        | error e => rw [hl] at h; exact Except.noConfusion h
        | ok tl =>
          obtain ⟨languageRows, languages1, lid1⟩ := tl
          rw [hl] at h
          cases hc : getOrCreateCountry s.countries s.nextCountryId c.country with
          | error e => rw [hc] at h; exact Except.noConfusion h
          | ok tc =>
            obtain ⟨countryRow, countries1, cid1⟩ := tc
            rw [hc] at h
            injection h with hpair
            injection hpair with hm hs
            subst hm; subst hs
            exact ⟨genreRows, actorRows, languageRows, countryRow,
              rfl, rfl, rfl, rfl, rfl, rfl, rfl, rfl, rfl⟩

/-- Claim C3: when two successive successful creates share a related-entity
natural key — a genre/actor/language name or the country code, compared
exactly — the final store holds exactly one row for that key and both
created movies (both present in the final store) reference that row. -/
theorem create_film_dedups_relations (s : Store) (a b : MovieCreateInput)
    (m1 : Movie) (s1 : Store) (m2 : Movie) (s2 : Store)
    (h1 : create_film s a = .ok (m1, s1)) (h2 : create_film s1 b = .ok (m2, s2)) :
    (∀ g ∈ a.genres, g ∈ b.genres →
      ∃ e : NamedRow, e.name = g ∧
        s2.genres.filter (fun r => r.name == g) = [e] ∧
        e.id ∈ m1.genreIds ∧ e.id ∈ m2.genreIds) ∧
    (∀ g ∈ a.actors, g ∈ b.actors →
      ∃ e : NamedRow, e.name = g ∧
        s2.actors.filter (fun r => r.name == g) = [e] ∧
        e.id ∈ m1.actorIds ∧ e.id ∈ m2.actorIds) ∧
    (∀ g ∈ a.languages, g ∈ b.languages →
      ∃ e : NamedRow, e.name = g ∧
        s2.languages.filter (fun r => r.name == g) = [e] ∧
        e.id ∈ m1.languageIds ∧ e.id ∈ m2.languageIds) ∧
    (a.country = b.country →
      ∃ cRow : CountryRow, cRow.code = a.country ∧
        s2.countries.filter (fun r => r.code == a.country) = [cRow] ∧
        m1.countryId = cRow.id ∧ m2.countryId = cRow.id) ∧
    m1 ∈ s2.movies ∧ m2 ∈ s2.movies := by
  obtain ⟨gr1, ar1, lr1, cr1, hg1, ha1, hl1, hc1, hmg1, hma1, hml1, hmc1, hmov1⟩ :=
    create_film_ok s a m1 s1 h1
  obtain ⟨gr2, ar2, lr2, cr2, hg2, ha2, hl2, hc2, hmg2, hma2, hml2, hmc2, hmov2⟩ :=
    create_film_ok s1 b m2 s2 h2
  refine ⟨?_, ?_, ?_, ?_, ?_, ?_⟩
  · intro g hga hgb
    obtain ⟨e, hen, hef, hei1, hei2⟩ :=
      getOrCreateMany_dedup s.genres s1.genres s2.genres s.nextGenreId
        s1.nextGenreId a.genres b.genres gr1 gr2 s1.nextGenreId s2.nextGenreId
        hg1 hg2 g hga hgb
    exact ⟨e, hen, hef, hmg1 ▸ hei1, hmg2 ▸ hei2⟩
  · intro g hga hgb
    obtain ⟨e, hen, hef, hei1, hei2⟩ :=
      getOrCreateMany_dedup s.actors s1.actors s2.actors s.nextActorId
        s1.nextActorId a.actors b.actors ar1 ar2 s1.nextActorId s2.nextActorId
        ha1 ha2 g hga hgb
    exact ⟨e, hen, hef, hma1 ▸ hei1, hma2 ▸ hei2⟩
  · intro g hga hgb
    obtain ⟨e, hen, hef, hei1, hei2⟩ :=
      getOrCreateMany_dedup s.languages s1.languages s2.languages
        s.nextLanguageId s1.nextLanguageId a.languages b.languages lr1 lr2
        s1.nextLanguageId s2.nextLanguageId hl1 hl2 g hga hgb
    exact ⟨e, hen, hef, hml1 ▸ hei1, hml2 ▸ hei2⟩
  · intro hab
    obtain ⟨hc1code, hc1f, -⟩ :=
      getOrCreateCountry_ok s.countries s.nextCountryId a.country cr1
        s1.countries s1.nextCountryId hc1
    obtain ⟨hc2code, hc2f, hcmono2⟩ :=
      getOrCreateCountry_ok s1.countries s1.nextCountryId b.country cr2
        s2.countries s2.nextCountryId hc2
    have hc1mem : cr1 ∈ s1.countries.filter (fun r => r.code == a.country) := by
      rw [hc1f]; exact List.mem_singleton_self cr1
    have h1m := List.mem_filter.mp hc1mem
    have hc1in2 : cr1 ∈ s2.countries.filter (fun r => r.code == b.country) :=
      List.mem_filter.mpr ⟨hcmono2 cr1 h1m.1, by rw [← hab]; exact h1m.2⟩
    rw [hc2f] at hc1in2
    have hc12 : cr1 = cr2 := List.mem_singleton.mp hc1in2
    refine ⟨cr1, hc1code, ?_, hmc1, by rw [hmc2, hc12]⟩
    rw [hab, hc2f, hc12]
  · rw [hmov2, hmov1]
    exact List.mem_append_left _ (List.mem_append_right _ (List.mem_singleton_self m1))
  · rw [hmov2]
    exact List.mem_append_right _ (List.mem_singleton_self m2)

/-- Witness for C3: two creates sharing the genre name on the empty store
leave exactly one Sci-Fi genre row, referenced by both movies. -/
theorem create_film_dedups_relations_witness :
    ∃ e : NamedRow, e.name = "Sci-Fi" ∧
      dedupStore2.genres.filter (fun r => r.name == "Sci-Fi") = [e] ∧
      e.id ∈ dedupMovieA.genreIds ∧ e.id ∈ dedupMovieB.genreIds :=
  (create_film_dedups_relations emptyStore sampleCreateInput sampleCreateInputB
    dedupMovieA dedupStore1 dedupMovieB dedupStore2 (by decide) (by decide)).1
    "Sci-Fi" (by decide) (by decide)

end MovieApp
